import Mathlib

/-!
Verification of the neo-chatten scoring and pricing core.

Shallow embedding of `src/tools/market_tools.py` (Q-score calculator,
recommendation engine, market aggregator, mint gate) and of the pricing
formulas asserted by `src/tests/test_contract.py`.  Python floats are
modelled as rationals (ℚ): every constant appearing in the source
(0.25, 0.8, 99.9, ...) is exactly representable, so the rational model
matches the float computation on all inputs considered here.  The
on-chain contract module `contracts/chatten_token.py` is not present in
the sources; its quote functions are modelled from the specification
(see `quoteBuy` / `quoteSell` below).
-/

/-- Categories of AI models, mirror of `ModelCategory` in market_tools.py.
Used only as metadata, never in scoring math. -/
inductive ModelCategory where
  | LLM
  | IMAGE_GEN
  | EMBEDDING
  | AUDIO
  | MULTIMODAL
deriving DecidableEq, Repr

/-- Mirror of the `PerformanceMetrics` dataclass: one performance snapshot.
All fields default to zero, as in the Python dataclass (the
`measurement_timestamp` metadata field is omitted: no claim touches it). -/
structure PerformanceMetrics where
  avg_latency_ms : ℚ := 0
  p95_latency_ms : ℚ := 0
  p99_latency_ms : ℚ := 0
  tokens_per_second : ℚ := 0
  requests_per_minute : ℚ := 0
  accuracy_score : ℚ := 0
  benchmark_score : ℚ := 0
  uptime_percentage : ℚ := 0
  error_rate : ℚ := 0
  cost_per_1k_tokens : ℚ := 0
  sample_size : ℕ := 0
deriving DecidableEq, Repr

/-- Mirror of the `QScoreResult` dataclass. -/
structure QScoreResult where
  model_id : String
  q_score : ℚ
  category : ModelCategory
  metrics : PerformanceMetrics
  latency_score : ℚ := 0
  throughput_score : ℚ := 0
  quality_score : ℚ := 0
  reliability_score : ℚ := 0
  recommendations : List String := []
  mint_eligible : Bool := false
deriving DecidableEq, Repr

/-- Threshold constant `MIN_SCORE_FOR_MINT = 50` of `QScoreAnalyzerTool`. -/
def MIN_SCORE_FOR_MINT : ℚ := 50

/-- Threshold constant `EXCELLENT_THRESHOLD = 80` of `QScoreAnalyzerTool`. -/
def EXCELLENT_THRESHOLD : ℚ := 80

/-- Threshold constant `GOOD_THRESHOLD = 60` of `QScoreAnalyzerTool`. -/
def GOOD_THRESHOLD : ℚ := 60

/-- Weight constant `LATENCY_WEIGHT = 0.25`. -/
def LATENCY_WEIGHT : ℚ := 0.25

/-- Weight constant `THROUGHPUT_WEIGHT = 0.25`. -/
def THROUGHPUT_WEIGHT : ℚ := 0.25

/-- Weight constant `QUALITY_WEIGHT = 0.25`. -/
def QUALITY_WEIGHT : ℚ := 0.25

/-- Weight constant `RELIABILITY_WEIGHT = 0.25`. -/
def RELIABILITY_WEIGHT : ℚ := 0.25

/-- Mirror of `_calculate_latency_score`: piecewise latency component
fraction in [0,1].  The Python chain of early returns becomes a chain of
if-then-else with the same guards in the same order. -/
def calculate_latency_score (metrics : PerformanceMetrics) : ℚ :=
  let latency := metrics.avg_latency_ms
  if latency ≤ 0 then 0.0
  else if latency < 50 then 1.0
  else if latency < 100 then 0.8
  else if latency < 200 then 0.6
  else if latency < 500 then 0.4
  else if latency < 1000 then 0.2
  else 0.0

/-- Mirror of `_calculate_throughput_score`. -/
def calculate_throughput_score (metrics : PerformanceMetrics) : ℚ :=
  let tps := metrics.tokens_per_second
  if tps ≥ 1000 then 1.0
  else if tps ≥ 500 then 0.8
  else if tps ≥ 200 then 0.6
  else if tps ≥ 100 then 0.4
  else if tps ≥ 50 then 0.2
  else 0.0

/-- Mirror of `_calculate_quality_score`: clamped accuracy and benchmark,
weighted 60/40. -/
def calculate_quality_score (metrics : PerformanceMetrics) : ℚ :=
  let accuracy := min (max metrics.accuracy_score 0.0) 1.0
  let benchmark := min (max (metrics.benchmark_score / 100.0) 0.0) 1.0
  accuracy * 0.6 + benchmark * 0.4

/-- Mirror of the uptime sub-score block inside `_calculate_reliability_score`. -/
def uptime_subscore (uptime : ℚ) : ℚ :=
  if uptime ≥ 99.9 then 1.0
  else if uptime ≥ 99 then 0.9
  else if uptime ≥ 95 then 0.5
  else if uptime ≥ 90 then 0.2
  else 0.0

/-- Mirror of the error-rate sub-score block inside `_calculate_reliability_score`. -/
def error_subscore (error_rate : ℚ) : ℚ :=
  if error_rate ≤ 0 then 1.0
  else if error_rate ≤ 0.01 then 0.9
  else if error_rate ≤ 0.05 then 0.5
  else if error_rate < 0.10 then 0.2
  else 0.0

/-- Mirror of `_calculate_reliability_score`: 50/50 blend of the two
sub-scores. -/
def calculate_reliability_score (metrics : PerformanceMetrics) : ℚ :=
  uptime_subscore metrics.uptime_percentage * 0.5 +
    error_subscore metrics.error_rate * 0.5

/-- Mirror of line 179 of market_tools.py, the mint gate predicate
`q_score >= MIN_SCORE_FOR_MINT`, exposed as a pure function of the
composite as §4.4 of the spec requires. -/
def canMint (compositeScore : ℚ) : Bool :=
  decide (MIN_SCORE_FOR_MINT ≤ compositeScore)

/-- Mirror of `_generate_recommendations`: the Python code appends to an
initially empty list, one advisory per low component in source order,
then exactly one summary line; sequential appends become list
concatenation. -/
def generate_recommendations (q_score latency throughput quality reliability : ℚ) :
    List String :=
  (if latency < 0.5 then ["Consider optimizing inference latency"] else []) ++
  (if throughput < 0.5 then ["Throughput could be improved with batching"] else []) ++
  (if quality < 0.5 then ["Model accuracy needs improvement"] else []) ++
  (if reliability < 0.5 then ["Improve uptime and reduce error rates"] else []) ++
  [if q_score ≥ EXCELLENT_THRESHOLD then
      "Excellent performance - eligible for premium rates"
    else if q_score ≥ MIN_SCORE_FOR_MINT then
      "Good performance - eligible for token minting"
    else
      "Below threshold - improvements needed before minting"]

/-- Mirror of `_fetch_metrics`: the `_metrics_cache` dict is modelled as a
partial map from model id to snapshot; a cache miss falls through the
unimplemented oracle stub to the all-default `PerformanceMetrics()`. -/
def fetch_metrics (cache : String → Option PerformanceMetrics)
    (model_id : String) : PerformanceMetrics :=
  match cache model_id with
  | some m => m
  | none => {}

/-- Mirror of `calculate_q_score`: resolve the snapshot (explicit argument
or cache fetch), compute the four component fractions, the weighted
composite scaled to 0-100, the mint flag and the recommendations, and
assemble the `QScoreResult` with the component fields scaled to 0-25. -/
def calculate_q_score (cache : String → Option PerformanceMetrics)
    (model_id : String) (metricsArg : Option PerformanceMetrics)
    (category : ModelCategory) : QScoreResult :=
  let metrics := match metricsArg with
    | none => fetch_metrics cache model_id
    | some m => m
  let latency_score := calculate_latency_score metrics
  let throughput_score := calculate_throughput_score metrics
  let quality_score := calculate_quality_score metrics
  let reliability_score := calculate_reliability_score metrics
  let q_score :=
    (latency_score * LATENCY_WEIGHT +
     throughput_score * THROUGHPUT_WEIGHT +
     quality_score * QUALITY_WEIGHT +
     reliability_score * RELIABILITY_WEIGHT) * 100
  let mint_eligible := canMint q_score
  let recommendations := generate_recommendations q_score latency_score
    throughput_score quality_score reliability_score
  { model_id := model_id
    q_score := q_score
    category := category
    metrics := metrics
    latency_score := latency_score * 25
    throughput_score := throughput_score * 25
    quality_score := quality_score * 25
    reliability_score := reliability_score * 25
    recommendations := recommendations
    mint_eligible := mint_eligible }

/-- Ordering relation used by `compare_models`: descending by composite
Q-score (Python `sorted(key, reverse=True)`). -/
def byScoreDesc (a b : QScoreResult) : Prop :=
  b.q_score ≤ a.q_score

instance : DecidableRel byScoreDesc :=
  fun a b => inferInstanceAs (Decidable (b.q_score ≤ a.q_score))

instance : IsTotal QScoreResult byScoreDesc :=
  ⟨fun a b => le_total b.q_score a.q_score⟩

instance : IsTrans QScoreResult byScoreDesc :=
  ⟨fun _ _ _ hab hbc => le_trans hbc hab⟩

/-- Mirror of `compare_models`: score every identifier with default
arguments (no explicit snapshot, LLM category) and stable-sort the
results by composite descending.  Python `sorted` with `reverse=True` is
a stable descending sort, which `List.insertionSort byScoreDesc`
implements (ties keep encounter order). -/
def compare_models (cache : String → Option PerformanceMetrics)
    (model_ids : List String) : List QScoreResult :=
  List.insertionSort byScoreDesc
    (model_ids.map (fun model_id =>
      calculate_q_score cache model_id none ModelCategory.LLM))

/-- Token decimal constant asserted by `src/tests/test_contract.py`. -/
def TOKEN_DECIMALS : ℕ := 8

/-- One whole token in smallest units, asserted equal to `10 ^ TOKEN_DECIMALS`
and to 100,000,000 by `src/tests/test_contract.py`. -/
def ONE_TOKEN : ℤ := 100000000

/-- Modelled from the spec: the contract module `contracts/chatten_token.py`
referenced by the tests is not present under the sources, so the buy-side
fee is taken from §4.5 (and from the formula hardcoded in
`src/tests/test_contract.py`): `fee = baseAmountIn * 3 // 1000`, integer
floor division. -/
def buyFee (baseAmountIn : ℤ) : ℤ :=
  Int.fdiv (baseAmountIn * 3) 1000

/-- Modelled from the spec: net base amount after the 0.3 percent fee,
`net = baseAmountIn - fee`. -/
def buyNet (baseAmountIn : ℤ) : ℤ :=
  baseAmountIn - buyFee baseAmountIn

/-- Modelled from the spec: `quoteBuy(baseAmountIn, price)` per §4.5 and §7.
A non-positive price is a programming error and must fail loudly rather
than silently clamp, so the quote returns an explicit error; otherwise
`tokenAmountOut = net * ONE_TOKEN // price` with floor division. -/
def quoteBuy (baseAmountIn price : ℤ) : Except String ℤ :=
  if price ≤ 0 then Except.error ("non-positive price")
  else Except.ok (Int.fdiv (buyNet baseAmountIn * ONE_TOKEN) price)

/-- Modelled from the spec: `quoteSell(tokenAmountIn, price)`, the
structural inverse of `quoteBuy` per §4.5: fee and net on the token leg,
output in base-asset smallest units, same floor-division and fee-rate
policy, same loud failure on a non-positive price. -/
def quoteSell (tokenAmountIn price : ℤ) : Except String ℤ :=
  if price ≤ 0 then Except.error ("non-positive price")
  else
    let fee := Int.fdiv (tokenAmountIn * 3) 1000
    let net := tokenAmountIn - fee
    Except.ok (Int.fdiv (net * price) ONE_TOKEN)

/-- C1: for every performance snapshot, the composite Q-score returned by
`calculate_q_score` equals the weighted sum of the four component
fractions times 100, and equals the sum of the four 0-25 component score
fields of the result, each component field being the 0-1 fraction times
25 (exact in the rational model, hence within floating rounding in the
source). -/
theorem q_score_composite_weighted_sum
    (cache : String → Option PerformanceMetrics) (model_id : String)
    (m : PerformanceMetrics) (category : ModelCategory) :
    (calculate_q_score cache model_id (some m) category).q_score =
      (calculate_latency_score m * 0.25 + calculate_throughput_score m * 0.25 +
        calculate_quality_score m * 0.25 + calculate_reliability_score m * 0.25) * 100 ∧
    (calculate_q_score cache model_id (some m) category).q_score =
      (calculate_q_score cache model_id (some m) category).latency_score +
        (calculate_q_score cache model_id (some m) category).throughput_score +
        (calculate_q_score cache model_id (some m) category).quality_score +
        (calculate_q_score cache model_id (some m) category).reliability_score ∧
    (calculate_q_score cache model_id (some m) category).latency_score =
      calculate_latency_score m * 25 ∧
    (calculate_q_score cache model_id (some m) category).throughput_score =
      calculate_throughput_score m * 25 ∧
    (calculate_q_score cache model_id (some m) category).quality_score =
      calculate_quality_score m * 25 ∧
    (calculate_q_score cache model_id (some m) category).reliability_score =
      calculate_reliability_score m * 25 := by
  refine ⟨?_, ?_, ?_, ?_, ?_, ?_⟩ <;>
    · simp only [calculate_q_score, LATENCY_WEIGHT, THROUGHPUT_WEIGHT,
        QUALITY_WEIGHT, RELIABILITY_WEIGHT]
      try ring

/-- C2: the buy quote uses integer floor division, fee = baseAmountIn * 3
divided by 1000, net = baseAmountIn - fee, tokenAmountOut = net * 10 ^ 8
divided by price; at baseAmountIn = 100,000,000 and price = 50,000,000
the fee is 300,000, the net 99,700,000 and the output 199,400,000; at
amount 10,000,000 the fee is 30,000. -/
theorem quoteBuy_floor_division_values :
    (∀ baseAmountIn price : ℤ, 0 < price →
      quoteBuy baseAmountIn price =
        Except.ok (Int.fdiv
          ((baseAmountIn - Int.fdiv (baseAmountIn * 3) 1000) * ONE_TOKEN) price)) ∧
    ONE_TOKEN = 10 ^ TOKEN_DECIMALS ∧
    buyFee 100000000 = 300000 ∧
    buyNet 100000000 = 99700000 ∧
    quoteBuy 100000000 50000000 = Except.ok 199400000 ∧
    buyFee 10000000 = 30000 := by
  refine ⟨?_, by decide, by decide, by decide, by rfl, by decide⟩
  intro baseAmountIn price h
  simp [quoteBuy, buyNet, buyFee, not_le.mpr h]

/-- Witness for C2: the general floor-division formula instantiated at the
concrete scenario of the fee tests. -/
theorem quoteBuy_floor_division_values_witness :
    quoteBuy 100000000 50000000 =
      Except.ok (Int.fdiv
        ((100000000 - Int.fdiv ((100000000 : ℤ) * 3) 1000) * ONE_TOKEN) 50000000) :=
  quoteBuy_floor_division_values.1 100000000 50000000 (by norm_num)

/-- C3: the mint-eligibility flag of every scoring result is true exactly
when the composite is at least 50, and the pure mint-gate predicate maps
50.0 to true and 49.999 to false. -/
theorem mint_eligible_iff_composite_ge_50 :
    (∀ (cache : String → Option PerformanceMetrics) (model_id : String)
      (metricsArg : Option PerformanceMetrics) (category : ModelCategory),
      ((calculate_q_score cache model_id metricsArg category).mint_eligible = true ↔
        50 ≤ (calculate_q_score cache model_id metricsArg category).q_score)) ∧
    canMint 50 = true ∧
    canMint 49.999 = false := by
  refine ⟨?_, ?_, ?_⟩
  · intro cache model_id metricsArg category
    simp [calculate_q_score, canMint, MIN_SCORE_FOR_MINT]
  · simp [canMint, MIN_SCORE_FOR_MINT]
  · simp only [canMint, MIN_SCORE_FOR_MINT, decide_eq_false_iff_not, not_le]
    norm_num

/-- C9: both modelled pricing functions fail with an explicit error on any
zero or negative price instead of returning a numeric quote. -/
theorem quotes_fail_on_nonpositive_price (amount price : ℤ) (h : price ≤ 0) :
    quoteBuy amount price = Except.error ("non-positive price") ∧
    quoteSell amount price = Except.error ("non-positive price") := by
  constructor
  · simp [quoteBuy, h]
  · simp [quoteSell, h]

/-- Witness for C9: price zero is rejected for a concrete one-unit trade. -/
theorem quotes_fail_on_nonpositive_price_witness :
    quoteBuy 100000000 0 = Except.error ("non-positive price") ∧
    quoteSell 100000000 0 = Except.error ("non-positive price") :=
  quotes_fail_on_nonpositive_price 100000000 0 (by norm_num)

/-- C10: scoring an uncached model with no explicit snapshot uses the
all-default snapshot; its latency, throughput and quality fractions are
0 but the reliability fraction is 0.5 because the default error rate 0
earns a perfect error sub-score despite the uptime sub-score being 0, so
the composite is exactly 12.5 and minting is not allowed. -/
theorem uncached_model_default_q_score
    (cache : String → Option PerformanceMetrics) (model_id : String)
    (category : ModelCategory) (h : cache model_id = none) :
    (calculate_q_score cache model_id none category).metrics = {} ∧
    (calculate_q_score cache model_id none category).q_score = 12.5 ∧
    (calculate_q_score cache model_id none category).mint_eligible = false ∧
    calculate_latency_score {} = 0 ∧
    calculate_throughput_score {} = 0 ∧
    calculate_quality_score {} = 0 ∧
    calculate_reliability_score {} = 0.5 ∧
    uptime_subscore 0 = 0 ∧
    error_subscore 0 = 1 := by
  have hm : fetch_metrics cache model_id = {} := by
    simp [fetch_metrics, h]
  refine ⟨?_, ?_, ?_, ?_, ?_, ?_, ?_, ?_, ?_⟩ <;>
    simp [calculate_q_score, hm, calculate_latency_score,
      calculate_throughput_score, calculate_quality_score,
      calculate_reliability_score, uptime_subscore, error_subscore,
      canMint, MIN_SCORE_FOR_MINT, LATENCY_WEIGHT, THROUGHPUT_WEIGHT,
      QUALITY_WEIGHT, RELIABILITY_WEIGHT] <;>
    norm_num

/-- Witness for C10: the empty cache misses every identifier and the
resulting composite is 12.5 with minting denied. -/
theorem uncached_model_default_q_score_witness :
    (calculate_q_score (fun _ => none) "model-x" none ModelCategory.LLM).q_score = 12.5 ∧
    (calculate_q_score (fun _ => none) "model-x" none ModelCategory.LLM).mint_eligible = false :=
  ⟨(uncached_model_default_q_score (fun _ => none) "model-x" ModelCategory.LLM rfl).2.1,
   (uncached_model_default_q_score (fun _ => none) "model-x" ModelCategory.LLM rfl).2.2.1⟩

/-- C6: the quality fraction is the 60/40 blend of accuracy clamped to
[0,1] and benchmark/100 clamped to [0,1]; it always lies in [0,1], and
the out-of-range snapshot with accuracy 1.5 and benchmark 150 clamps to
exactly 1. -/
theorem quality_score_clamped (m : PerformanceMetrics) :
    calculate_quality_score m =
      min (max m.accuracy_score 0) 1 * 0.6 +
        min (max (m.benchmark_score / 100) 0) 1 * 0.4 ∧
    0 ≤ calculate_quality_score m ∧
    calculate_quality_score m ≤ 1 ∧
    calculate_quality_score { accuracy_score := 1.5, benchmark_score := 150 } = 1 := by
  have ha0 : (0 : ℚ) ≤ min (max m.accuracy_score 0) 1 :=
    le_min (le_max_right _ 0) zero_le_one
  have ha1 : min (max m.accuracy_score 0) 1 ≤ 1 := min_le_right _ _
  have hb0 : (0 : ℚ) ≤ min (max (m.benchmark_score / 100) 0) 1 :=
    le_min (le_max_right _ 0) zero_le_one
  have hb1 : min (max (m.benchmark_score / 100) 0) 1 ≤ 1 := min_le_right _ _
  refine ⟨by norm_num [calculate_quality_score], ?_, ?_, ?_⟩
  · simp only [calculate_quality_score]
    norm_num
    nlinarith
  · simp only [calculate_quality_score]
    norm_num
    nlinarith
  · norm_num [calculate_quality_score]

/-- C4 counterexample: the latency score is not monotonically non-increasing
over all latencies, because a non-positive latency is treated as invalid
and scores 0.0 while any small positive latency scores 1.0: at the pair
L1 = 0 ≤ L2 = 60 the score rises from 0.0 to 0.8. -/
theorem latency_monotone_counterexample :
    (0 : ℚ) ≤ 60 ∧
    ¬ (calculate_latency_score { avg_latency_ms := 60 } ≤
        calculate_latency_score { avg_latency_ms := 0 }) := by
  constructor
  · norm_num
  · norm_num [calculate_latency_score]

/-- C4 amended: restricted to positive latencies, the latency component
score is monotonically non-increasing: for 0 < L1 ≤ L2 the score at L1
is at least the score at L2. -/
theorem latency_score_antitone_on_pos
    (m1 m2 : PerformanceMetrics) (h0 : 0 < m1.avg_latency_ms)
    (h12 : m1.avg_latency_ms ≤ m2.avg_latency_ms) :
    calculate_latency_score m2 ≤ calculate_latency_score m1 := by
  simp only [calculate_latency_score]
  split_ifs <;> (try norm_num) <;> linarith

/-- Witness for the amended C4: latencies 10 and 60 with 0 < 10 ≤ 60. -/
theorem latency_score_antitone_on_pos_witness :
    calculate_latency_score { avg_latency_ms := 60 } ≤
      calculate_latency_score { avg_latency_ms := 10 } :=
  latency_score_antitone_on_pos { avg_latency_ms := 10 } { avg_latency_ms := 60 }
    (by norm_num) (by norm_num)

/-- C5: the latency component score is the exact piecewise function of the
average latency tabulated in the spec, with left-inclusive upper bounds,
so the boundary values map as L = 50 to 0.8 and L = 100 to 0.6. -/
theorem latency_score_piecewise (m : PerformanceMetrics) :
    (m.avg_latency_ms ≤ 0 → calculate_latency_score m = 0.0) ∧
    (0 < m.avg_latency_ms → m.avg_latency_ms < 50 → calculate_latency_score m = 1.0) ∧
    (50 ≤ m.avg_latency_ms → m.avg_latency_ms < 100 → calculate_latency_score m = 0.8) ∧
    (100 ≤ m.avg_latency_ms → m.avg_latency_ms < 200 → calculate_latency_score m = 0.6) ∧
    (200 ≤ m.avg_latency_ms → m.avg_latency_ms < 500 → calculate_latency_score m = 0.4) ∧
    (500 ≤ m.avg_latency_ms → m.avg_latency_ms < 1000 → calculate_latency_score m = 0.2) ∧
    (1000 ≤ m.avg_latency_ms → calculate_latency_score m = 0.0) := by
  refine ⟨?_, ?_, ?_, ?_, ?_, ?_, ?_⟩ <;>
    intro h <;>
    first
      | (simp only [calculate_latency_score]
         split_ifs <;> first | rfl | linarith)
      | (intro h2
         simp only [calculate_latency_score]
         split_ifs <;> first | rfl | linarith)

/-- Witness for C5: the boundary latency L = 50 scores exactly 0.8. -/
theorem latency_score_piecewise_witness :
    calculate_latency_score { avg_latency_ms := 50 } = 0.8 :=
  (latency_score_piecewise { avg_latency_ms := 50 }).2.2.1 (by norm_num) (by norm_num)

/-- Advisory messages paired with their component fractions in the fixed
order latency, throughput, quality, reliability; written from the words
of §4.2 of the spec for comparison with the source translation. -/
def componentAdvisories (latency throughput quality reliability : ℚ) :
    List (ℚ × String) :=
  [(latency, "Consider optimizing inference latency"),
   (throughput, "Throughput could be improved with batching"),
   (quality, "Model accuracy needs improvement"),
   (reliability, "Improve uptime and reduce error rates")]

/-- Spec-side recommendation list per §4.2: one advisory per component
whose fraction is below 0.5, kept in the fixed order, followed by
exactly one summary line keyed by the composite range. -/
def recommendationsSpec (q_score latency throughput quality reliability : ℚ) :
    List String :=
  ((componentAdvisories latency throughput quality reliability).filter
      (fun p => decide (p.1 < 0.5))).map Prod.snd ++
    [if 80 ≤ q_score then "Excellent performance - eligible for premium rates"
      else if 50 ≤ q_score then "Good performance - eligible for token minting"
      else "Below threshold - improvements needed before minting"]

/-- C8: the generated recommendation list is exactly one advisory per
component fraction below 0.5 in the fixed order latency, throughput,
quality, reliability, followed by exactly one summary line keyed by the
composite (premium at 80 and above, mint-eligible from 50 below 80,
below-threshold otherwise); determinism on identical inputs holds
because the engine is a pure function of its five arguments. -/
theorem recommendations_structure
    (q_score latency throughput quality reliability : ℚ) :
    generate_recommendations q_score latency throughput quality reliability =
      recommendationsSpec q_score latency throughput quality reliability := by
  simp only [generate_recommendations, recommendationsSpec, componentAdvisories,
    EXCELLENT_THRESHOLD, MIN_SCORE_FOR_MINT, ge_iff_le]
  by_cases h1 : latency < 0.5 <;> by_cases h2 : throughput < 0.5 <;>
    by_cases h3 : quality < 0.5 <;> by_cases h4 : reliability < 0.5 <;>
    simp [List.filter_cons, h1, h2, h3, h4]

/-- Filtering on one exact composite value commutes with the ordered
insert used by the descending sort: every element the insertion walks
past has a strictly larger composite than the inserted one, hence a
different composite. -/
theorem filter_orderedInsert_byScoreDesc (q : ℚ) (a : QScoreResult)
    (l : List QScoreResult) :
    (List.orderedInsert byScoreDesc a l).filter (fun r => decide (r.q_score = q)) =
      if a.q_score = q then
        a :: l.filter (fun r => decide (r.q_score = q))
      else l.filter (fun r => decide (r.q_score = q)) := by
  induction l with
  | nil =>
    by_cases ha : a.q_score = q <;> simp [List.orderedInsert, ha]
  | cons b l ih =>
    by_cases hab : byScoreDesc a b
    · by_cases ha : a.q_score = q <;>
        simp [List.orderedInsert, hab, List.filter_cons, ha]
    · have hlt : a.q_score < b.q_score := by
        simpa [byScoreDesc, not_le] using hab
      by_cases ha : a.q_score = q
      · have hb : ¬ b.q_score = q := by
          intro hbq
          rw [ha] at hlt
          rw [hbq] at hlt
          exact lt_irrefl _ hlt
        simp [List.orderedInsert, hab, List.filter_cons, ih, ha, hb]
      · by_cases hb : b.q_score = q <;>
          simp [List.orderedInsert, hab, List.filter_cons, ih, ha, hb]

/-- C7: compare_models returns exactly one result per identifier (same
length, and a permutation of the independently scored list), sorted by
composite Q-score in descending order, and for any fixed composite value
the results carrying it appear in the original encounter order of the
input list (stability of the sort). -/
theorem compare_models_sorted_stable
    (cache : String → Option PerformanceMetrics) (model_ids : List String) :
    (compare_models cache model_ids).length = model_ids.length ∧
    (compare_models cache model_ids).Perm
      (model_ids.map (fun model_id =>
        calculate_q_score cache model_id none ModelCategory.LLM)) ∧
    List.Sorted byScoreDesc (compare_models cache model_ids) ∧
    (∀ q : ℚ,
      (compare_models cache model_ids).filter (fun r => decide (r.q_score = q)) =
        (model_ids.map (fun model_id =>
          calculate_q_score cache model_id none ModelCategory.LLM)).filter
          (fun r => decide (r.q_score = q))) := by
  refine ⟨?_, ?_, ?_, ?_⟩
  · rw [compare_models, (List.perm_insertionSort byScoreDesc _).length_eq,
      List.length_map]
  · exact List.perm_insertionSort byScoreDesc _
  · exact List.sorted_insertionSort byScoreDesc _
  · intro q
    rw [compare_models]
    generalize (model_ids.map fun model_id =>
      calculate_q_score cache model_id none ModelCategory.LLM) = l
    induction l with
    | nil => rfl
    | cons b l ih =>
      rw [List.insertionSort,
        filter_orderedInsert_byScoreDesc q b (List.insertionSort byScoreDesc l), ih]
      by_cases hb : b.q_score = q <;> simp [List.filter_cons, hb]
